import Mathlib

/-!
Verification of the numerical support routines of the IB2d immersed-boundary
code (file `Supp.py` of the Python port).  The embedding is shallow: numpy
arrays become lists of rationals, float arithmetic becomes exact rational
arithmetic with the floating square root abstracted as a function parameter
`sqrtF` where it occurs, and a Python function that can raise an exception
returns `Except`.  Functions that write into their argument arrays are
embedded as state transformers that also return the final contents of every
argument array.
-/

set_option autoImplicit false

namespace IB2d

/-- Read entry `n` of a 1D array, with the convention that an index past the
end reads as `0`.  All indices produced by the code below are reduced
`mod N` and are in range whenever the Eulerian arrays have their declared
length `N`. -/
def arrGet : List ℚ → ℕ → ℚ
  | [], _ => 0
  | a :: _, 0 => a
  | _ :: l, n + 1 => arrGet l n

/-- Read row `n` of a 2D array (out of range reads as the empty row). -/
def rowGet : List (List ℚ) → ℕ → List ℚ
  | [], _ => []
  | r :: _, 0 => r
  | _ :: u, n + 1 => rowGet u n

/-- Read entry `(i, j)` of a 2D array. -/
def matGet (u : List (List ℚ)) (i j : ℕ) : ℚ :=
  arrGet (rowGet u i) j

/-- Write entry `n` of a 1D array (a write past the end is dropped; the
numpy code only writes existing columns). -/
def setA : List ℚ → ℕ → ℚ → List ℚ
  | [], _, _ => []
  | _ :: l, 0, b => b :: l
  | a :: l, n + 1, b => a :: setA l n b

/-- Python float modulo `a % L`, whose result for `L > 0` lies in `[0, L)`:
`a - L * floor (a / L)`. -/
def qmod (a L : ℚ) : ℚ := a - L * ⌊a / L⌋

/-- Embedding of `give_Eulerian_Lagrangian_Distance` (Supp.py lines 209-225),
acting entrywise: `distance = abs (x - y)` followed by
`distance = minimum (distance, L - distance)`. -/
def give_Eulerian_Lagrangian_Distance (x y L : ℚ) : ℚ :=
  min |x - y| (L - |x - y|)

/-- Helper facts about `qmod`. -/
lemma qmod_eq_self {a L : ℚ} (hL : 0 < L) (h0 : 0 ≤ a) (h1 : a < L) :
    qmod a L = a := by
  have hfl : ⌊a / L⌋ = 0 :=
    Int.floor_eq_zero_iff.mpr
      (Set.mem_Ico.mpr ⟨div_nonneg h0 hL.le, (div_lt_one hL).mpr h1⟩)
  simp [qmod, hfl]

/-- C8: for `0 < L` and `a, b` in `[0, L)`, the periodic distance equals
`min (abs (a - b)) (L - abs (a - b))`, is symmetric, lies in `[0, L/2]`, and
vanishes on the diagonal. -/
theorem C8_periodic_distance (a b L : ℚ) (hL : 0 < L)
    (ha0 : 0 ≤ a) (haL : a < L) (hb0 : 0 ≤ b) (hbL : b < L) :
    give_Eulerian_Lagrangian_Distance a b L = min |a - b| (L - |a - b|)
    ∧ give_Eulerian_Lagrangian_Distance a b L
        = give_Eulerian_Lagrangian_Distance b a L
    ∧ 0 ≤ give_Eulerian_Lagrangian_Distance a b L
    ∧ give_Eulerian_Lagrangian_Distance a b L ≤ L / 2
    ∧ (a = b → give_Eulerian_Lagrangian_Distance a b L = 0) := by
  have habs : |a - b| < L := by
    rw [abs_lt]
    constructor <;> linarith
  have habs0 : 0 ≤ |a - b| := abs_nonneg _
  refine ⟨rfl, ?_, ?_, ?_, ?_⟩
  · unfold give_Eulerian_Lagrangian_Distance
    rw [abs_sub_comm]
  · exact le_min habs0 (by linarith)
  · rcases le_or_lt |a - b| (L / 2) with h | h
    · exact le_trans (min_le_left _ _) h
    · exact le_trans (min_le_right _ _) (by linarith)
  · intro hab
    subst hab
    simp [give_Eulerian_Lagrangian_Distance, hL.le]

/-- Witness for C8 at `a = 1/3`, `b = 2/3`, `L = 2`. -/
theorem C8_periodic_distance_witness :
    ((0 : ℚ) < 2 ∧ (0 : ℚ) ≤ 1/3 ∧ (1/3 : ℚ) < 2 ∧ (0 : ℚ) ≤ 2/3 ∧ (2/3 : ℚ) < 2)
    ∧ (give_Eulerian_Lagrangian_Distance (1/3) (2/3) 2
          = min |(1/3 : ℚ) - 2/3| (2 - |(1/3 : ℚ) - 2/3|)
        ∧ give_Eulerian_Lagrangian_Distance (1/3) (2/3) 2
            = give_Eulerian_Lagrangian_Distance (2/3) (1/3) 2
        ∧ 0 ≤ give_Eulerian_Lagrangian_Distance (1/3) (2/3) 2
        ∧ give_Eulerian_Lagrangian_Distance (1/3) (2/3) 2 ≤ 2 / 2
        ∧ ((1/3 : ℚ) = 2/3 → give_Eulerian_Lagrangian_Distance (1/3) (2/3) 2 = 0)) :=
  ⟨by norm_num,
   C8_periodic_distance (1/3) (2/3) 2 (by norm_num) (by norm_num) (by norm_num)
     (by norm_num) (by norm_num)⟩

/-- Embedding of the entrywise action of `give_Delta_Kernel` (Supp.py lines
237-267).  The code sets `RMAT = abs (x) / dx`, aliases `delta = RMAT`, and
then rewrites `delta[ii, jj]` only when `r < 1` or `1 <= r < 2`; when
`r >= 2` the cell is never written, so the returned value there is `r`
itself, not `0`.  The floating square root is abstracted as `sqrtF`; each
cell is written from its own original value, so the in-place loop acts as a
map over entries. -/
def give_Delta_Kernel (sqrtF : ℚ → ℚ) (x dx : ℚ) : ℚ :=
  let r := |x| / dx
  if r < 1 then (3 - 2 * r + sqrtF (1 + 4 * r - 4 * r * r)) / (8 * dx)
  else if r < 2 then (5 - 2 * r - sqrtF (-7 + 12 * r - 4 * r * r)) / (8 * dx)
  else r

/-- Matrix form of `give_Delta_Kernel`: the Python function maps the
entrywise kernel over the whole input array. -/
def give_Delta_Kernel_mat (sqrtF : ℚ → ℚ) (x : List (List ℚ)) (dx : ℚ) :
    List (List ℚ) :=
  x.map (fun row => row.map (fun e => give_Delta_Kernel sqrtF e dx))

/-- C1 (failing input): at `x = [[3]]`, `dx = 1` we have `r = 3 >= 2`, and
`give_Delta_Kernel` returns `[[3]]` (the untouched `RMAT` value `r`) instead
of the `[[0]]` required for a kernel supported on `[x - 2 dx, x + 2 dx]`;
the branch taken never invokes the square root. -/
theorem C1_delta_kernel_not_zero_outside_support :
    give_Delta_Kernel_mat (fun q => q) [[(3 : ℚ)]] 1 = [[(3 : ℚ)]]
    ∧ give_Delta_Kernel_mat (fun q => q) [[(3 : ℚ)]] 1 ≠ [[(0 : ℚ)]] := by
  constructor
  · simp [give_Delta_Kernel_mat, give_Delta_Kernel]
    norm_num
  · simp [give_Delta_Kernel_mat, give_Delta_Kernel]
    norm_num

/-- Embedding of one row of `give_1D_NonZero_Delta_Indices` (Supp.py lines
278-305), for a single Lagrangian coordinate `p`: the code computes
`ind_Aux = floor (p / dx + 1)`, adds the offsets `-supp/2 + 1 + j` for
`j = 0, ..., supp - 1`, and reduces `(indices - 1) mod N`.  The Python
values are floats holding exact integers; they are embedded as integers. -/
def give_1D_NonZero_Delta_Indices (p : ℚ) (N : ℕ) (dx : ℚ) (supp : ℕ) :
    List ℤ :=
  (List.range supp).map
    (fun (j : ℕ) => (⌊p / dx + 1⌋ + (-(supp : ℤ) / 2 + 1 + (j : ℤ)) - 1) % (N : ℤ))

lemma emod_add_inj {c N i j : ℤ} (hN : 0 < N) (hi : 0 ≤ i) (hj : 0 ≤ j)
    (hiN : i < N) (hjN : j < N) (h : (c + i) % N = (c + j) % N) : i = j := by
  have h2 : (c + i - (c + j)) % N = 0 := by
    rw [Int.sub_emod, h, sub_self, Int.zero_emod]
  have h3 : (i - j) % N = 0 := by
    have : c + i - (c + j) = i - j := by ring
    rwa [this] at h2
  rcases Int.dvd_of_emod_eq_zero h3 with ⟨t, ht⟩
  have ht1 : i - j < N := by omega
  have ht2 : -N < i - j := by omega
  have hzero : t = 0 := by
    rcases lt_trichotomy t 0 with hlt | hz | hgt
    · exfalso
      have h1 : t ≤ -1 := by omega
      have h2 : N * t ≤ N * (-1) := mul_le_mul_of_nonneg_left h1 hN.le
      have h3 : N * (-1) = -N := by ring
      omega
    · exact hz
    · exfalso
      have h1 : 1 ≤ t := by omega
      have h2 : N * 1 ≤ N * t := mul_le_mul_of_nonneg_left h1 hN.le
      have h3 : N * 1 = N := by ring
      omega
  rw [hzero, mul_zero] at ht
  omega

/-- C6: for `p >= 0`, `N >= 1`, `dx > 0` and even `supp >= 2`,
`give_1D_NonZero_Delta_Indices` returns exactly the `supp` values
`(floor (p / dx + 1) + k - 1) mod N` for `k = -supp/2 + 1, ..., supp/2`
(listed as `k = j - supp/2 + 1` for `j = 0, ..., supp - 1`), each in
`{0, ..., N - 1}`, pairwise distinct whenever `supp <= N`. -/
theorem C6_give_1D_indices (p dx : ℚ) (N supp : ℕ)
    (hp : 0 ≤ p) (hdx : 0 < dx) (hN : 1 ≤ N) (hsupp : 2 ≤ supp)
    (heven : supp % 2 = 0) :
    give_1D_NonZero_Delta_Indices p N dx supp
      = (List.range supp).map
          (fun (j : ℕ) => (⌊p / dx + 1⌋ + ((j : ℤ) - (supp : ℤ) / 2 + 1) - 1) % (N : ℤ))
    ∧ (give_1D_NonZero_Delta_Indices p N dx supp).length = supp
    ∧ (∀ ix ∈ give_1D_NonZero_Delta_Indices p N dx supp, 0 ≤ ix ∧ ix < (N : ℤ))
    ∧ (supp ≤ N → (give_1D_NonZero_Delta_Indices p N dx supp).Nodup) := by
  have hN0 : (0 : ℤ) < (N : ℤ) := by exact_mod_cast hN
  refine ⟨?_, ?_, ?_, ?_⟩
  · unfold give_1D_NonZero_Delta_Indices
    apply List.map_congr_left
    intro j _
    have harg : ⌊p / dx + 1⌋ + (-(supp : ℤ) / 2 + 1 + (j : ℤ)) - 1
        = ⌊p / dx + 1⌋ + ((j : ℤ) - (supp : ℤ) / 2 + 1) - 1 := by omega
    rw [harg]
  · simp [give_1D_NonZero_Delta_Indices]
  · intro ix hix
    unfold give_1D_NonZero_Delta_Indices at hix
    rcases List.mem_map.mp hix with ⟨j, _, rfl⟩
    exact ⟨Int.emod_nonneg _ (by omega), Int.emod_lt_of_pos _ hN0⟩
  · intro hsN
    unfold give_1D_NonZero_Delta_Indices
    apply List.Nodup.map_on _ (List.nodup_range supp)
    intro j1 hj1 j2 hj2 heq
    rw [List.mem_range] at hj1 hj2
    have hc1 : ⌊p / dx + 1⌋ + (-(supp : ℤ) / 2 + 1 + (j1 : ℤ)) - 1
        = (⌊p / dx + 1⌋ + (-(supp : ℤ) / 2)) + (j1 : ℤ) := by ring
    have hc2 : ⌊p / dx + 1⌋ + (-(supp : ℤ) / 2 + 1 + (j2 : ℤ)) - 1
        = (⌊p / dx + 1⌋ + (-(supp : ℤ) / 2)) + (j2 : ℤ) := by ring
    rw [hc1, hc2] at heq
    have : (j1 : ℤ) = (j2 : ℤ) := by
      refine emod_add_inj hN0 (by omega) (by omega) ?_ ?_ heq
      · exact_mod_cast lt_of_lt_of_le hj1 hsN
      · exact_mod_cast lt_of_lt_of_le hj2 hsN
    exact_mod_cast this

/-- Witness for C6 at `p = 5/2`, `dx = 1/2`, `N = 8`, `supp = 4`. -/
theorem C6_give_1D_indices_witness :
    ((0 : ℚ) ≤ 5/2 ∧ (0 : ℚ) < 1/2 ∧ 1 ≤ 8 ∧ 2 ≤ 4 ∧ 4 % 2 = 0)
    ∧ (give_1D_NonZero_Delta_Indices (5/2) 8 (1/2) 4
        = (List.range 4).map
            (fun (j : ℕ) => (⌊(5 : ℚ)/2 / (1/2) + 1⌋ + ((j : ℤ) - (4 : ℤ) / 2 + 1) - 1) % (8 : ℤ))
      ∧ (give_1D_NonZero_Delta_Indices (5/2) 8 (1/2) 4).length = 4
      ∧ (∀ ix ∈ give_1D_NonZero_Delta_Indices (5/2) 8 (1/2) 4, 0 ≤ ix ∧ ix < (8 : ℤ))
      ∧ (4 ≤ 8 → (give_1D_NonZero_Delta_Indices (5/2) 8 (1/2) 4).Nodup)) :=
  ⟨by norm_num,
   C6_give_1D_indices (5/2) (1/2) 8 4 (by norm_num) (by norm_num) (by norm_num)
     (by norm_num) (by norm_num)⟩

lemma length_setA (l : List ℚ) (n : ℕ) (b : ℚ) : (setA l n b).length = l.length := by
  induction l generalizing n with
  | nil => rfl
  | cons a l ih =>
    cases n with
    | zero => rfl
    | succ m => simp [setA, ih]

lemma arrGet_setA_eq {l : List ℚ} {n : ℕ} {b : ℚ} (h : n < l.length) :
    arrGet (setA l n b) n = b := by
  induction l generalizing n with
  | nil => simp at h
  | cons a l ih =>
    cases n with
    | zero => rfl
    | succ m => exact ih (by simpa using h)

lemma arrGet_setA_ne {l : List ℚ} {m n : ℕ} {b : ℚ} (h : m ≠ n) :
    arrGet (setA l n b) m = arrGet l m := by
  induction l generalizing m n with
  | nil => rfl
  | cons a l ih =>
    cases n with
    | zero =>
      cases m with
      | zero => exact absurd rfl h
      | succ m2 => rfl
    | succ n2 =>
      cases m with
      | zero => rfl
      | succ m2 => exact ih (by omega)

lemma rowGet_mem {l : List (List ℚ)} {i : ℕ} (h : i < l.length) : rowGet l i ∈ l := by
  induction l generalizing i with
  | nil => simp at h
  | cons r l ih =>
    cases i with
    | zero => exact List.mem_cons_self _ _
    | succ j => exact List.mem_cons_of_mem _ (ih (by simpa using h))

lemma rowGet_zipWith {f : List ℚ → List ℚ → List ℚ} {l m : List (List ℚ)} {i : ℕ}
    (hl : i < l.length) (hm : i < m.length) :
    rowGet (List.zipWith f l m) i = f (rowGet l i) (rowGet m i) := by
  induction l generalizing m i with
  | nil => simp at hl
  | cons a l ih =>
    cases m with
    | nil => simp at hm
    | cons b m =>
      cases i with
      | zero => rfl
      | succ j => exact ih (by simpa using hl) (by simpa using hm)

/-- Result of `please_Move_Massive_Boundary` (Supp.py lines 313-338).
`ret_mass_info` and `massLagsOld` are the two returned values;
`final_mass_info` and `final_mVelocity` are the contents of the two argument
arrays after the call.  The source assigns `mass_info[:,1]` and
`mass_info[:,2]` in place, so the returned table is the argument array
itself after mutation, while `massLagsOld = np.array(mass_info[:,(1,2)])`
is a fresh copy taken before the mutation. -/
structure MoveMassiveResult where
  ret_mass_info : List (List ℚ)
  massLagsOld : List (List ℚ)
  final_mass_info : List (List ℚ)
  final_mVelocity : List (List ℚ)

/-- Embedding of `please_Move_Massive_Boundary`: copy columns `(1, 2)` of
`mass_info`, then write column 1 as `mass_info[:,1] + dt_step * mVelocity[:,0]`
and column 2 as `mass_info[:,2] + dt_step * mVelocity[:,1]` back into
`mass_info`, mirroring the two in-place column assignments of the source. -/
def please_Move_Massive_Boundary (dt_step : ℚ)
    (mass_info mVelocity : List (List ℚ)) : MoveMassiveResult :=
  let massLagsOld := mass_info.map (fun row => [arrGet row 1, arrGet row 2])
  let updated1 := List.zipWith
    (fun row vrow => setA row 1 (arrGet row 1 + dt_step * arrGet vrow 0))
    mass_info mVelocity
  let updated2 := List.zipWith
    (fun row vrow => setA row 2 (arrGet row 2 + dt_step * arrGet vrow 1))
    updated1 mVelocity
  { ret_mass_info := updated2
    massLagsOld := massLagsOld
    final_mass_info := updated2
    final_mVelocity := mVelocity }

/-- C5: `please_Move_Massive_Boundary` returns `massLagsOld` equal to the
pre-update `(x, y)` columns of `mass_info`, and the returned table carries
positions `old + dt_step * velocity` componentwise, with no periodic wrap
(the update formula holds exactly, whatever the resulting values are). -/
theorem C5_move_massive_boundary (dt_step : ℚ)
    (mass_info mVelocity : List (List ℚ))
    (hlen : mass_info.length = mVelocity.length)
    (hrows : ∀ row ∈ mass_info, 3 ≤ row.length) :
    (please_Move_Massive_Boundary dt_step mass_info mVelocity).massLagsOld
      = mass_info.map (fun row => [arrGet row 1, arrGet row 2])
    ∧ (please_Move_Massive_Boundary dt_step mass_info mVelocity).ret_mass_info.length
        = mass_info.length
    ∧ ∀ i, i < mass_info.length →
        arrGet (rowGet (please_Move_Massive_Boundary dt_step mass_info mVelocity).ret_mass_info i) 1
          = arrGet (rowGet mass_info i) 1 + dt_step * arrGet (rowGet mVelocity i) 0
        ∧ arrGet (rowGet (please_Move_Massive_Boundary dt_step mass_info mVelocity).ret_mass_info i) 2
          = arrGet (rowGet mass_info i) 2 + dt_step * arrGet (rowGet mVelocity i) 1 := by
  refine ⟨rfl, ?_, ?_⟩
  · simp [please_Move_Massive_Boundary, hlen]
  · intro i hi
    have hiv : i < mVelocity.length := hlen ▸ hi
    have hrow : 3 ≤ (rowGet mass_info i).length := hrows _ (rowGet_mem hi)
    have h1len : i < (List.zipWith
        (fun row vrow => setA row 1 (arrGet row 1 + dt_step * arrGet vrow 0))
        mass_info mVelocity).length := by
      simp [hlen, hiv]
    have hr2 : rowGet (please_Move_Massive_Boundary dt_step mass_info mVelocity).ret_mass_info i
        = setA (setA (rowGet mass_info i) 1
              (arrGet (rowGet mass_info i) 1 + dt_step * arrGet (rowGet mVelocity i) 0)) 2
            (arrGet (setA (rowGet mass_info i) 1
              (arrGet (rowGet mass_info i) 1 + dt_step * arrGet (rowGet mVelocity i) 0)) 2
              + dt_step * arrGet (rowGet mVelocity i) 1) := by
      show rowGet (List.zipWith _ (List.zipWith _ mass_info mVelocity) mVelocity) i = _
      rw [rowGet_zipWith h1len hiv, rowGet_zipWith hi hiv]
    constructor
    · rw [hr2, arrGet_setA_ne (by omega), arrGet_setA_eq (by omega)]
    · rw [hr2, arrGet_setA_eq (by rw [length_setA]; omega),
        arrGet_setA_ne (by omega)]

/-- Witness for C5 with one massive point. -/
theorem C5_move_massive_boundary_witness :
    (([[0, 1, 2, 3, 4]] : List (List ℚ)).length = ([[5, 7]] : List (List ℚ)).length
      ∧ ∀ row ∈ ([[0, 1, 2, 3, 4]] : List (List ℚ)), 3 ≤ row.length)
    ∧ ((please_Move_Massive_Boundary 2 [[0, 1, 2, 3, 4]] [[5, 7]]).massLagsOld
        = ([[0, 1, 2, 3, 4]] : List (List ℚ)).map (fun row => [arrGet row 1, arrGet row 2])
      ∧ (please_Move_Massive_Boundary 2 [[0, 1, 2, 3, 4]] [[5, 7]]).ret_mass_info.length
          = ([[0, 1, 2, 3, 4]] : List (List ℚ)).length
      ∧ ∀ i, i < ([[0, 1, 2, 3, 4]] : List (List ℚ)).length →
          arrGet (rowGet (please_Move_Massive_Boundary 2 [[0, 1, 2, 3, 4]] [[5, 7]]).ret_mass_info i) 1
            = arrGet (rowGet [[0, 1, 2, 3, 4]] i) 1 + 2 * arrGet (rowGet [[5, 7]] i) 0
          ∧ arrGet (rowGet (please_Move_Massive_Boundary 2 [[0, 1, 2, 3, 4]] [[5, 7]]).ret_mass_info i) 2
            = arrGet (rowGet [[0, 1, 2, 3, 4]] i) 2 + 2 * arrGet (rowGet [[5, 7]] i) 1) :=
  ⟨⟨by decide, by decide⟩,
   C5_move_massive_boundary 2 [[0, 1, 2, 3, 4]] [[5, 7]] (by decide) (by decide)⟩

/-- Result of `please_Update_Massive_Boundary_Velocity` (Supp.py lines
348-392): the returned value (or raised exception) together with the final
contents of every argument array. -/
structure UpdateMassiveVelResult where
  result : Except String (List (List ℚ))
  final_mass_info : List (List ℚ)
  final_mVelocity : List (List ℚ)
  final_F_Mass_Bnd : List (List ℚ)
  final_gravity_Info : List ℚ

/-- Embedding of `please_Update_Massive_Boundary_Velocity`.  The source
computes `ids = mass_info[:,0]`, branches on `gravity_Info[0] == 1`, and on
each branch its first statement stores into `mVelocity_h[:,0]` — but the
name `mVelocity_h` is never bound anywhere, so evaluating the assignment
target raises `NameError` before anything is computed or written.  Every
call therefore raises, and no argument array is modified. -/
def please_Update_Massive_Boundary_Velocity (dt_step : ℚ)
    (mass_info mVelocity F_Mass_Bnd : List (List ℚ)) (gravity_Info : List ℚ) :
    UpdateMassiveVelResult :=
  let _ids := mass_info.map (fun row => arrGet row 0)
  let _dt := dt_step
  if arrGet gravity_Info 0 = 1 then
    { result := Except.error "NameError: name mVelocity_h is not defined"
      final_mass_info := mass_info
      final_mVelocity := mVelocity
      final_F_Mass_Bnd := F_Mass_Bnd
      final_gravity_Info := gravity_Info }
  else
    { result := Except.error "NameError: name mVelocity_h is not defined"
      final_mass_info := mass_info
      final_mVelocity := mVelocity
      final_F_Mass_Bnd := F_Mass_Bnd
      final_gravity_Info := gravity_Info }

/-- C2 (failing input): the single-point scenario of the claim — mass `2`,
zero force, gravity disabled, velocity `(0, 0)`, `dt = 1/10` — does not
return the claimed updated velocity `(0, 0)`: the call raises `NameError`
because the assignment target `mVelocity_h` is never defined. -/
theorem C2_update_massive_velocity_raises :
    (please_Update_Massive_Boundary_Velocity (1/10) [[0, 0, 0, 0, 2]] [[0, 0]]
        [[0, 0]] [0, 0, 1]).result
      = Except.error "NameError: name mVelocity_h is not defined"
    ∧ ∀ velNew : List (List ℚ),
        (please_Update_Massive_Boundary_Velocity (1/10) [[0, 0, 0, 0, 2]] [[0, 0]]
          [[0, 0]] [0, 0, 1]).result ≠ Except.ok velNew := by
  constructor
  · rfl
  · intro velNew h
    exact Except.noConfusion (h.symm.trans (by rfl))

/-- C3 (counterexample): `please_Move_Massive_Boundary` mutates the
`mass_info` array passed in — after the call its contents differ from the
input `[[0, 1, 2, 3, 4]]` (the positions were overwritten in place). -/
theorem C3_mass_info_is_mutated :
    (please_Move_Massive_Boundary 1 [[0, 1, 2, 3, 4]] [[1, 1]]).final_mass_info
      ≠ [[(0 : ℚ), 1, 2, 3, 4]] := by
  simp [please_Move_Massive_Boundary, setA, arrGet]

/-- C3 (amended): `please_Move_Massive_Boundary` leaves `mVelocity`
unmodified but writes the updated positions into `mass_info` in place, and
the table it returns is exactly that mutated argument (not a fresh array);
`please_Update_Massive_Boundary_Velocity` modifies none of its argument
arrays (it raises `NameError` before any write). -/
theorem C3_amended_frame (dt_step : ℚ)
    (mass_info mVelocity F_Mass_Bnd : List (List ℚ)) (gravity_Info : List ℚ) :
    (please_Move_Massive_Boundary dt_step mass_info mVelocity).final_mVelocity
        = mVelocity
    ∧ (please_Move_Massive_Boundary dt_step mass_info mVelocity).ret_mass_info
        = (please_Move_Massive_Boundary dt_step mass_info mVelocity).final_mass_info
    ∧ ((please_Update_Massive_Boundary_Velocity dt_step mass_info mVelocity
          F_Mass_Bnd gravity_Info).final_mass_info = mass_info
        ∧ (please_Update_Massive_Boundary_Velocity dt_step mass_info mVelocity
            F_Mass_Bnd gravity_Info).final_mVelocity = mVelocity
        ∧ (please_Update_Massive_Boundary_Velocity dt_step mass_info mVelocity
            F_Mass_Bnd gravity_Info).final_F_Mass_Bnd = F_Mass_Bnd
        ∧ (please_Update_Massive_Boundary_Velocity dt_step mass_info mVelocity
            F_Mass_Bnd gravity_Info).final_gravity_Info = gravity_Info) := by
  refine ⟨rfl, rfl, ?_⟩
  unfold please_Update_Massive_Boundary_Velocity
  split <;> exact ⟨rfl, rfl, rfl, rfl⟩

/-- Embedding of the matrix computed by `D` (Supp.py lines 404-441), the
centered first-derivative operator with periodic wrap on the ends.  It is
stated entrywise over `n = u.shape[0]` rows and columns, matching the three
region assignments of the source; the index arithmetic is in bounds exactly
when `u` is square with at least two rows, the shapes on which the numpy
code runs without raising.  On an unrecognized axis none of the assignments
run and the zero-initialized `u_z` is returned. -/
def Dmat (u : List (List ℚ)) (dz : ℚ) (s : String) : List (List ℚ) :=
  let n := u.length
  if s = "x" then
    (List.range n).map (fun i =>
      (List.range n).map (fun j =>
        if j = 0 then (matGet u i 1 - matGet u i (n - 1)) / (2 * dz)
        else if j = n - 1 then (matGet u i 0 - matGet u i (n - 2)) / (2 * dz)
        else (matGet u i (j + 1) - matGet u i (j - 1)) / (2 * dz)))
  else if s = "y" then
    (List.range n).map (fun i =>
      (List.range n).map (fun j =>
        if i = 0 then (matGet u 1 j - matGet u (n - 1) j) / (2 * dz)
        else if i = n - 1 then (matGet u 0 j - matGet u (n - 2) j) / (2 * dz)
        else (matGet u (i + 1) j - matGet u (i - 1) j) / (2 * dz)))
  else List.replicate n (List.replicate n 0)

/-- Embedding of the matrix computed by `DD` (Supp.py lines 452-491), the
centered second-derivative operator, under the same conventions as `Dmat`. -/
def DDmat (u : List (List ℚ)) (dz : ℚ) (s : String) : List (List ℚ) :=
  let n := u.length
  if s = "x" then
    (List.range n).map (fun i =>
      (List.range n).map (fun j =>
        if j = 0 then (matGet u i 1 - 2 * matGet u i 0 + matGet u i (n - 1)) / dz ^ 2
        else if j = n - 1 then
          (matGet u i 0 - 2 * matGet u i (n - 1) + matGet u i (n - 2)) / dz ^ 2
        else (matGet u i (j + 1) - 2 * matGet u i j + matGet u i (j - 1)) / dz ^ 2))
  else if s = "y" then
    (List.range n).map (fun i =>
      (List.range n).map (fun j =>
        if i = 0 then (matGet u 1 j - 2 * matGet u 0 j + matGet u (n - 1) j) / dz ^ 2
        else if i = n - 1 then
          (matGet u 0 j - 2 * matGet u (n - 1) j + matGet u (n - 2) j) / dz ^ 2
        else (matGet u (i + 1) j - 2 * matGet u i j + matGet u (i - 1) j) / dz ^ 2))
  else List.replicate n (List.replicate n 0)

/-- Outcome of a call to `D`: the Python function returns `u_z` on every
path — on an unrecognized axis it prints an error message (see `Dmsgs`) and
still returns the zero-initialized array — so the outcome is always
`Except.ok`; a raised exception would be `Except.error`. -/
def D (u : List (List ℚ)) (dz : ℚ) (s : String) :
    Except String (List (List ℚ)) :=
  Except.ok (Dmat u dz s)

/-- Outcome of a call to `DD`, analogous to `D`. -/
def DD (u : List (List ℚ)) (dz : ℚ) (s : String) :
    Except String (List (List ℚ)) :=
  Except.ok (DDmat u dz s)

/-- Lines printed by `D`: nothing on a valid axis, the two-line error text
otherwise. -/
def Dmsgs (s : String) : List String :=
  if s = "x" ∨ s = "y" then []
  else ["\n\n\n ERROR IN FUNCTION D FOR COMPUTING 1ST DERIVATIVE\n",
        "Need to specify which desired derivative, x or y.\n\n\n"]

/-- Lines printed by `DD`: nothing on a valid axis, the two-line error text
otherwise. -/
def DDmsgs (s : String) : List String :=
  if s = "x" ∨ s = "y" then []
  else ["\n\n\n ERROR IN FUNCTION DD FOR COMPUTING 2ND DERIVATIVE\n",
        "Need to specify which desired derivative, x or y.\n\n\n"]

/-- C4 (counterexample): on the invalid axis tag "z", both `D` and `DD`
return a normal result — the zero matrix — rather than failing fast. -/
theorem C4_invalid_axis_returns_normally :
    D [[(1 : ℚ)]] 1 "z" = Except.ok [[(0 : ℚ)]]
    ∧ DD [[(1 : ℚ)]] 1 "z" = Except.ok [[(0 : ℚ)]] := by
  constructor <;> rfl

/-- C4 (amended): for an axis tag outside `{x, y}`, `D` and `DD` print a
descriptive error message and return normally an all-zero matrix of shape
`(n, n)` with `n` the number of rows of `u`; no exception is raised. -/
theorem C4_amended_error_reporting (u : List (List ℚ)) (dz : ℚ) (s : String)
    (hx : s ≠ "x") (hy : s ≠ "y") :
    D u dz s = Except.ok (List.replicate u.length (List.replicate u.length 0))
    ∧ Dmsgs s = ["\n\n\n ERROR IN FUNCTION D FOR COMPUTING 1ST DERIVATIVE\n",
          "Need to specify which desired derivative, x or y.\n\n\n"]
    ∧ DD u dz s = Except.ok (List.replicate u.length (List.replicate u.length 0))
    ∧ DDmsgs s = ["\n\n\n ERROR IN FUNCTION DD FOR COMPUTING 2ND DERIVATIVE\n",
          "Need to specify which desired derivative, x or y.\n\n\n"] := by
  refine ⟨?_, ?_, ?_, ?_⟩ <;> simp [D, DD, Dmat, DDmat, Dmsgs, DDmsgs, hx, hy]

/-- Witness for the amended C4 at `u = [[1]]`, `dz = 1`, axis "z". -/
theorem C4_amended_error_reporting_witness :
    (("z" : String) ≠ "x" ∧ ("z" : String) ≠ "y")
    ∧ (D [[(1 : ℚ)]] 1 "z"
          = Except.ok (List.replicate ([[(1 : ℚ)]] : List (List ℚ)).length
              (List.replicate ([[(1 : ℚ)]] : List (List ℚ)).length 0))
      ∧ Dmsgs "z" = ["\n\n\n ERROR IN FUNCTION D FOR COMPUTING 1ST DERIVATIVE\n",
            "Need to specify which desired derivative, x or y.\n\n\n"]
      ∧ DD [[(1 : ℚ)]] 1 "z"
          = Except.ok (List.replicate ([[(1 : ℚ)]] : List (List ℚ)).length
              (List.replicate ([[(1 : ℚ)]] : List (List ℚ)).length 0))
      ∧ DDmsgs "z" = ["\n\n\n ERROR IN FUNCTION DD FOR COMPUTING 2ND DERIVATIVE\n",
            "Need to specify which desired derivative, x or y.\n\n\n"]) :=
  ⟨⟨by decide, by decide⟩,
   C4_amended_error_reporting [[(1 : ℚ)]] 1 "z" (by decide) (by decide)⟩

/-- Elementwise combination of two matrices (numpy broadcasting of equal
shapes). -/
def matE (f : ℚ → ℚ → ℚ) (A B : List (List ℚ)) : List (List ℚ) :=
  List.zipWith (fun r t => List.zipWith f r t) A B

/-- Elementwise matrix sum. -/
def matAdd : List (List ℚ) → List (List ℚ) → List (List ℚ) := matE (· + ·)

/-- Elementwise matrix difference. -/
def matSub : List (List ℚ) → List (List ℚ) → List (List ℚ) := matE (· - ·)

/-- Elementwise (Hadamard) matrix product. -/
def matMulE : List (List ℚ) → List (List ℚ) → List (List ℚ) := matE (· * ·)

/-- Scalar times matrix, elementwise. -/
def matSmul (c : ℚ) (A : List (List ℚ)) : List (List ℚ) :=
  A.map (fun r => r.map (fun e => c * e))

/-- Embedding of `please_Update_Adv_Diff_Concentration` (Supp.py lines
501-528): compute `Cx`, `Cy`, `Cxx`, `Cyy` with the derivative operators and
return `C + dt * (k * (Cxx + Cyy) - uX * Cx - uY * Cy)`, all operations
elementwise.  The source rebinds its local name `C` to this freshly built
array; the argument array is never written into. -/
def please_Update_Adv_Diff_Concentration (C : List (List ℚ)) (dt dx dy : ℚ)
    (uX uY : List (List ℚ)) (k : ℚ) : List (List ℚ) :=
  let Cx := Dmat C dx "x"
  let Cy := Dmat C dy "y"
  let Cxx := DDmat C dx "x"
  let Cyy := DDmat C dy "y"
  matAdd C (matSmul dt (matSub (matSub (matSmul k (matAdd Cxx Cyy))
    (matMulE uX Cx)) (matMulE uY Cy)))

/-- Contents of the `C` argument array after a call to
`please_Update_Adv_Diff_Concentration`: the source contains no subscript
assignment into `C` (its only update, `C = C + dt * (...)`, rebinds the
local name to a new array), so the argument is returned unchanged. -/
def please_Update_Adv_Diff_Concentration_finalC (C : List (List ℚ))
    (_dt _dx _dy : ℚ) (_uX _uY : List (List ℚ)) (_k : ℚ) : List (List ℚ) := C

/-- C9: one explicit advection-diffusion step returns
`C + dt * (k * (Cxx + Cyy) - uX * Cx - uY * Cy)` with `Cx = D(C, dx, x)`,
`Cy = D(C, dy, y)`, `Cxx = DD(C, dx, x)`, `Cyy = DD(C, dy, y)`, and the
input field is left unmodified.  The size hypotheses describe the square,
at-least-2-by-2 fields on which the numpy derivative operators run without
raising. -/
theorem C9_adv_diff_step (C uX uY : List (List ℚ)) (dt dx dy k : ℚ)
    (hdt : 0 < dt) (hdx : 0 < dx) (hdy : 0 < dy) (hn : 2 ≤ C.length)
    (hsq : ∀ row ∈ C, row.length = C.length)
    (hux : uX.length = C.length) (huy : uY.length = C.length)
    (huxr : ∀ row ∈ uX, row.length = C.length)
    (huyr : ∀ row ∈ uY, row.length = C.length) :
    please_Update_Adv_Diff_Concentration C dt dx dy uX uY k
      = matAdd C (matSmul dt (matSub (matSub
          (matSmul k (matAdd (DDmat C dx "x") (DDmat C dy "y")))
          (matMulE uX (Dmat C dx "x"))) (matMulE uY (Dmat C dy "y"))))
    ∧ please_Update_Adv_Diff_Concentration_finalC C dt dx dy uX uY k = C :=
  ⟨rfl, rfl⟩

/-- Witness for C9 on a concrete 2 by 2 field. -/
theorem C9_adv_diff_step_witness :
    ((0 : ℚ) < 1/10 ∧ (0 : ℚ) < 1/2 ∧ (0 : ℚ) < 1/2
      ∧ 2 ≤ ([[1, 2], [3, 4]] : List (List ℚ)).length
      ∧ (∀ row ∈ ([[1, 2], [3, 4]] : List (List ℚ)),
          row.length = ([[1, 2], [3, 4]] : List (List ℚ)).length)
      ∧ ([[1, 0], [0, 1]] : List (List ℚ)).length
          = ([[1, 2], [3, 4]] : List (List ℚ)).length
      ∧ ([[2, 1], [1, 2]] : List (List ℚ)).length
          = ([[1, 2], [3, 4]] : List (List ℚ)).length
      ∧ (∀ row ∈ ([[1, 0], [0, 1]] : List (List ℚ)),
          row.length = ([[1, 2], [3, 4]] : List (List ℚ)).length)
      ∧ (∀ row ∈ ([[2, 1], [1, 2]] : List (List ℚ)),
          row.length = ([[1, 2], [3, 4]] : List (List ℚ)).length))
    ∧ (please_Update_Adv_Diff_Concentration [[1, 2], [3, 4]] (1/10) (1/2) (1/2)
          [[1, 0], [0, 1]] [[2, 1], [1, 2]] 3
        = matAdd [[1, 2], [3, 4]] (matSmul (1/10) (matSub (matSub
            (matSmul 3 (matAdd (DDmat [[1, 2], [3, 4]] (1/2) "x")
              (DDmat [[1, 2], [3, 4]] (1/2) "y")))
            (matMulE [[1, 0], [0, 1]] (Dmat [[1, 2], [3, 4]] (1/2) "x")))
            (matMulE [[2, 1], [1, 2]] (Dmat [[1, 2], [3, 4]] (1/2) "y"))))
      ∧ please_Update_Adv_Diff_Concentration_finalC [[1, 2], [3, 4]] (1/10)
          (1/2) (1/2) [[1, 0], [0, 1]] [[2, 1], [1, 2]] 3 = [[1, 2], [3, 4]]) :=
  ⟨by norm_num, C9_adv_diff_step [[1, 2], [3, 4]] [[1, 0], [0, 1]]
    [[2, 1], [1, 2]] (1/10) (1/2) (1/2) 3 (by norm_num) (by norm_num)
    (by norm_num) (by norm_num) (by decide) (by decide) (by decide)
    (by decide) (by decide)⟩

/-- Embedding of `give_NonZero_Delta_Indices_XY` (Supp.py lines 162-197):
row `i` of `xInds` is the x-index row of point `i` tiled `supp` times in
the horizontal direction (np.tile), and row `i` of `yInds` repeats each
y-index `supp` consecutive times (np.repeat along axis 1).  The float
indices hold exact integers and are embedded as integers, absorbing the
final `astype` cast. -/
def give_NonZero_Delta_Indices_XY (xLag yLag : List ℚ) (Nx Ny : ℕ)
    (dx dy : ℚ) (supp : ℕ) : List (List ℤ) × List (List ℤ) :=
  (xLag.map (fun p => List.flatten (List.replicate supp
      (give_1D_NonZero_Delta_Indices p Nx dx supp))),
   yLag.map (fun p => (give_1D_NonZero_Delta_Indices p Ny dy supp).flatMap
      (fun e => List.replicate supp e)))

/-- Fancy indexing `u[yInds, xInds]`: entry `(i, j)` of the result is
`u[yInds[i][j], xInds[i][j]]`.  All index values produced by the callers
are reduced `mod N` and hence non-negative and in range on grids of the
declared sizes. -/
def fancyIndex (u : List (List ℚ)) (yInds xInds : List (List ℤ)) :
    List (List ℚ) :=
  List.zipWith (fun yRow xRow => List.zipWith
    (fun iy ix => matGet u iy.toNat ix.toNat) yRow xRow) yInds xInds

/-- Embedding of `give_Me_Perturbed_Distance` (Supp.py lines 129-150):
`mat_X = u[yInds, xInds] * delta_X * delta_Y` elementwise, and
`move_X = mat_X.sum(1) * (dx * dy)`; likewise for `v`. -/
def give_Me_Perturbed_Distance (u v : List (List ℚ)) (dx dy : ℚ)
    (delta_X delta_Y : List (List ℚ)) (xInds yInds : List (List ℤ)) :
    List ℚ × List ℚ :=
  let mat_X := matMulE (matMulE (fancyIndex u yInds xInds) delta_X) delta_Y
  let mat_Y := matMulE (matMulE (fancyIndex v yInds xInds) delta_X) delta_Y
  (mat_X.map (fun row => row.sum * (dx * dy)),
   mat_Y.map (fun row => row.sum * (dx * dy)))

/-- The fields of the `grid_Info` dictionary read by
`please_Move_Lagrangian_Point_Positions` (Supp.py lines 77-85). -/
structure GridInfo where
  Nx : ℕ
  Ny : ℕ
  Lx : ℚ
  Ly : ℚ
  dx : ℚ
  dy : ℚ
  supp : ℕ
  Nb : ℕ
  ds : ℚ

/-- The index and delta-kernel matrices computed in the first half of
`please_Move_Lagrangian_Point_Positions` (Supp.py lines 88-106): non-zero
delta indices for both directions, positions wrapped into the domain by
`%`, periodic distances to the nearby Eulerian nodes, and the delta kernel
values.  Returns `((delta_X, delta_Y), (xInds, yInds))`. -/
def lagrangian_deltas (sqrtF : ℚ → ℚ) (xL_H yL_H x y : List ℚ)
    (grid_Info : GridInfo) :
    (List (List ℚ) × List (List ℚ)) × (List (List ℤ) × List (List ℤ)) :=
  let inds := give_NonZero_Delta_Indices_XY xL_H yL_H grid_Info.Nx
    grid_Info.Ny grid_Info.dx grid_Info.dy grid_Info.supp
  let xLH_aux := xL_H.map (fun a => qmod a grid_Info.Lx)
  let yLH_aux := yL_H.map (fun a => qmod a grid_Info.Ly)
  let distX := List.zipWith (fun row a => row.map (fun ix =>
      give_Eulerian_Lagrangian_Distance (arrGet x ix.toNat) a grid_Info.Lx))
    inds.1 xLH_aux
  let distY := List.zipWith (fun row a => row.map (fun iy =>
      give_Eulerian_Lagrangian_Distance (arrGet y iy.toNat) a grid_Info.Ly))
    inds.2 yLH_aux
  let delta_X := distX.map (fun row => row.map
    (fun d => give_Delta_Kernel sqrtF d grid_Info.dx))
  let delta_Y := distY.map (fun row => row.map
    (fun d => give_Delta_Kernel sqrtF d grid_Info.dy))
  ((delta_X, delta_Y), (inds.1, inds.2))

/-- Embedding of `please_Move_Lagrangian_Point_Positions` (Supp.py lines
56-121): form the delta stencils from the half-step positions `xL_H, yL_H`,
integrate the velocity against them, update
`xL_Next = xL_P + dt * move_X`, and wrap into `[0, Lx) x [0, Ly)` by `%`
only in the non-porous case. -/
def please_Move_Lagrangian_Point_Positions (sqrtF : ℚ → ℚ)
    (u v : List (List ℚ)) (xL_P yL_P xL_H yL_H x y : List ℚ) (dt : ℚ)
    (grid_Info : GridInfo) (porous_Yes : Bool) : List ℚ × List ℚ :=
  let dl := lagrangian_deltas sqrtF xL_H yL_H x y grid_Info
  let moves := give_Me_Perturbed_Distance u v grid_Info.dx grid_Info.dy
    dl.1.1 dl.1.2 dl.2.1 dl.2.2
  let xL_Next := List.zipWith (fun xp m => xp + dt * m) xL_P moves.1
  let yL_Next := List.zipWith (fun yp m => yp + dt * m) yL_P moves.2
  if porous_Yes then (xL_Next, yL_Next)
  else (xL_Next.map (fun a => qmod a grid_Info.Lx),
        yL_Next.map (fun a => qmod a grid_Info.Ly))

lemma arrGet_all_zero : ∀ (l : List ℚ), (∀ e ∈ l, e = 0) → ∀ n, arrGet l n = 0
  | [], _, n => by cases n <;> rfl
  | a :: l, h, 0 => h a (List.mem_cons_self a l)
  | _ :: l, h, (n + 1) =>
    arrGet_all_zero l (fun e he => h e (List.mem_cons_of_mem _ he)) n

lemma matGet_all_zero :
    ∀ (u : List (List ℚ)), (∀ r ∈ u, ∀ e ∈ r, e = 0) → ∀ i j, matGet u i j = 0
  | [], _, i, _ => by cases i <;> rfl
  | r :: u, h, 0, j => arrGet_all_zero r (h r (List.mem_cons_self r u)) j
  | _ :: u, h, (i + 1), j =>
    matGet_all_zero u (fun r2 hr2 => h r2 (List.mem_cons_of_mem _ hr2)) i j

lemma mem_zipWith {α β γ : Type} {f : α → β → γ} {l₁ : List α} {l₂ : List β}
    {z : γ} (h : z ∈ List.zipWith f l₁ l₂) : ∃ a ∈ l₁, ∃ b ∈ l₂, z = f a b := by
  induction l₁ generalizing l₂ with
  | nil => simp at h
  | cons a l ih =>
    cases l₂ with
    | nil => simp at h
    | cons b m =>
      rw [List.zipWith_cons_cons] at h
      rcases List.mem_cons.mp h with h1 | h2
      · exact ⟨a, List.mem_cons_self _ _, b, List.mem_cons_self _ _, h1⟩
      · rcases ih h2 with ⟨a2, ha2, b2, hb2, hz⟩
        exact ⟨a2, List.mem_cons_of_mem _ ha2, b2, List.mem_cons_of_mem _ hb2, hz⟩

lemma fancyIndex_all_zero {u : List (List ℚ)} (h : ∀ r ∈ u, ∀ e ∈ r, e = 0)
    (yInds xInds : List (List ℤ)) :
    ∀ row ∈ fancyIndex u yInds xInds, ∀ e ∈ row, e = 0 := by
  intro row hrow e he
  simp only [fancyIndex] at hrow
  rcases mem_zipWith hrow with ⟨yRow, _, xRow, _, rfl⟩
  rcases mem_zipWith he with ⟨iy, _, ix, _, rfl⟩
  exact matGet_all_zero u h _ _

lemma matMulE_left_all_zero {A : List (List ℚ)}
    (h : ∀ r ∈ A, ∀ e ∈ r, e = 0) (B : List (List ℚ)) :
    ∀ row ∈ matMulE A B, ∀ e ∈ row, e = 0 := by
  intro row hrow e he
  simp only [matMulE, matE] at hrow
  rcases mem_zipWith hrow with ⟨rA, hrA, rB, _, rfl⟩
  rcases mem_zipWith he with ⟨a, ha, b, _, rfl⟩
  rw [h rA hrA a ha, zero_mul]

lemma perturbed_zero_left {u : List (List ℚ)} (hu : ∀ r ∈ u, ∀ e ∈ r, e = 0)
    (v : List (List ℚ)) (dx dy : ℚ) (dX dY : List (List ℚ))
    (xI yI : List (List ℤ)) :
    ∀ m ∈ (give_Me_Perturbed_Distance u v dx dy dX dY xI yI).1, m = 0 := by
  intro m hm
  simp only [give_Me_Perturbed_Distance] at hm
  rcases List.mem_map.mp hm with ⟨row, hrow, rfl⟩
  have hz : ∀ e ∈ row, e = 0 :=
    matMulE_left_all_zero
      (matMulE_left_all_zero (fancyIndex_all_zero hu yI xI) dX) dY row hrow
  rw [List.sum_eq_zero hz, zero_mul]

lemma perturbed_zero_right (u : List (List ℚ)) {v : List (List ℚ)}
    (hv : ∀ r ∈ v, ∀ e ∈ r, e = 0) (dx dy : ℚ) (dX dY : List (List ℚ))
    (xI yI : List (List ℤ)) :
    ∀ m ∈ (give_Me_Perturbed_Distance u v dx dy dX dY xI yI).2, m = 0 := by
  intro m hm
  simp only [give_Me_Perturbed_Distance] at hm
  rcases List.mem_map.mp hm with ⟨row, hrow, rfl⟩
  have hz : ∀ e ∈ row, e = 0 :=
    matMulE_left_all_zero
      (matMulE_left_all_zero (fancyIndex_all_zero hv yI xI) dX) dY row hrow
  rw [List.sum_eq_zero hz, zero_mul]

lemma length_give_Me_Perturbed_fst (u v : List (List ℚ)) (dx dy : ℚ)
    (dX dY : List (List ℚ)) (xI yI : List (List ℤ)) :
    (give_Me_Perturbed_Distance u v dx dy dX dY xI yI).1.length
      = min (min (min yI.length xI.length) dX.length) dY.length := by
  simp [give_Me_Perturbed_Distance, matMulE, matE, fancyIndex,
    List.length_zipWith]

lemma length_give_Me_Perturbed_snd (u v : List (List ℚ)) (dx dy : ℚ)
    (dX dY : List (List ℚ)) (xI yI : List (List ℤ)) :
    (give_Me_Perturbed_Distance u v dx dy dX dY xI yI).2.length
      = min (min (min yI.length xI.length) dX.length) dY.length := by
  simp [give_Me_Perturbed_Distance, matMulE, matE, fancyIndex,
    List.length_zipWith]

lemma lagrangian_deltas_lengths (sqrtF : ℚ → ℚ) (xL_H yL_H x y : List ℚ)
    (grid_Info : GridInfo) :
    (lagrangian_deltas sqrtF xL_H yL_H x y grid_Info).1.1.length = xL_H.length
    ∧ (lagrangian_deltas sqrtF xL_H yL_H x y grid_Info).1.2.length = yL_H.length
    ∧ (lagrangian_deltas sqrtF xL_H yL_H x y grid_Info).2.1.length = xL_H.length
    ∧ (lagrangian_deltas sqrtF xL_H yL_H x y grid_Info).2.2.length = yL_H.length := by
  refine ⟨?_, ?_, ?_, ?_⟩ <;>
    simp [lagrangian_deltas, give_NonZero_Delta_Indices_XY,
      List.length_zipWith]

lemma zipWith_add_zero {dt : ℚ} {l ms : List ℚ} (h : ∀ m ∈ ms, m = 0)
    (hlen : l.length ≤ ms.length) :
    List.zipWith (fun a m => a + dt * m) l ms = l := by
  induction l generalizing ms with
  | nil => rfl
  | cons a l ih =>
    cases ms with
    | nil => simp at hlen
    | cons m ms2 =>
      rw [List.zipWith_cons_cons, h m (List.mem_cons_self _ _), mul_zero,
        add_zero, ih (fun e he => h e (List.mem_cons_of_mem _ he))
          (by simpa using hlen)]

lemma map_qmod_eq_self {L : ℚ} (hL : 0 < L) {l : List ℚ}
    (h : ∀ a ∈ l, 0 ≤ a ∧ a < L) : l.map (fun a => qmod a L) = l := by
  induction l with
  | nil => rfl
  | cons a l ih =>
    rw [List.map_cons,
      qmod_eq_self hL (h a (List.mem_cons_self a l)).1
        (h a (List.mem_cons_self a l)).2,
      ih (fun e he => h e (List.mem_cons_of_mem a he))]

/-- C7: with identically zero velocity fields the Lagrangian points do not
move: for previous positions inside `[0, Lx) x [0, Ly)` the function
returns `(xL_P, yL_P)` exactly, in the porous and the non-porous setting
alike. -/
theorem C7_zero_velocity_round_trip (sqrtF : ℚ → ℚ) (u v : List (List ℚ))
    (xL_P yL_P xL_H yL_H x y : List ℚ) (dt : ℚ) (grid_Info : GridInfo)
    (porous_Yes : Bool)
    (hu : ∀ r ∈ u, ∀ e ∈ r, e = 0) (hv : ∀ r ∈ v, ∀ e ∈ r, e = 0)
    (hLx : 0 < grid_Info.Lx) (hLy : 0 < grid_Info.Ly)
    (hxP : ∀ a ∈ xL_P, 0 ≤ a ∧ a < grid_Info.Lx)
    (hyP : ∀ a ∈ yL_P, 0 ≤ a ∧ a < grid_Info.Ly)
    (hl1 : xL_P.length = xL_H.length) (hl2 : yL_P.length = yL_H.length)
    (hl3 : xL_P.length = yL_P.length) :
    please_Move_Lagrangian_Point_Positions sqrtF u v xL_P yL_P xL_H yL_H x y
      dt grid_Info porous_Yes = (xL_P, yL_P) := by
  obtain ⟨hd1, hd2, hd3, hd4⟩ :=
    lagrangian_deltas_lengths sqrtF xL_H yL_H x y grid_Info
  simp only [please_Move_Lagrangian_Point_Positions]
  have hm1 := perturbed_zero_left hu v grid_Info.dx grid_Info.dy
    (lagrangian_deltas sqrtF xL_H yL_H x y grid_Info).1.1
    (lagrangian_deltas sqrtF xL_H yL_H x y grid_Info).1.2
    (lagrangian_deltas sqrtF xL_H yL_H x y grid_Info).2.1
    (lagrangian_deltas sqrtF xL_H yL_H x y grid_Info).2.2
  have hm2 := perturbed_zero_right u hv grid_Info.dx grid_Info.dy
    (lagrangian_deltas sqrtF xL_H yL_H x y grid_Info).1.1
    (lagrangian_deltas sqrtF xL_H yL_H x y grid_Info).1.2
    (lagrangian_deltas sqrtF xL_H yL_H x y grid_Info).2.1
    (lagrangian_deltas sqrtF xL_H yL_H x y grid_Info).2.2
  have hlen1 : xL_P.length ≤ (give_Me_Perturbed_Distance u v grid_Info.dx
      grid_Info.dy (lagrangian_deltas sqrtF xL_H yL_H x y grid_Info).1.1
      (lagrangian_deltas sqrtF xL_H yL_H x y grid_Info).1.2
      (lagrangian_deltas sqrtF xL_H yL_H x y grid_Info).2.1
      (lagrangian_deltas sqrtF xL_H yL_H x y grid_Info).2.2).1.length := by
    rw [length_give_Me_Perturbed_fst, hd1, hd2, hd3, hd4]
    omega
  have hlen2 : yL_P.length ≤ (give_Me_Perturbed_Distance u v grid_Info.dx
      grid_Info.dy (lagrangian_deltas sqrtF xL_H yL_H x y grid_Info).1.1
      (lagrangian_deltas sqrtF xL_H yL_H x y grid_Info).1.2
      (lagrangian_deltas sqrtF xL_H yL_H x y grid_Info).2.1
      (lagrangian_deltas sqrtF xL_H yL_H x y grid_Info).2.2).2.length := by
    rw [length_give_Me_Perturbed_snd, hd1, hd2, hd3, hd4]
    omega
  rw [zipWith_add_zero hm1 hlen1, zipWith_add_zero hm2 hlen2]
  cases porous_Yes with
  | true => rfl
  | false =>
    rw [if_neg (by simp), map_qmod_eq_self hLx hxP, map_qmod_eq_self hLy hyP]

/-- Witness for C7: one point at `(1, 3/2)` on a 4 by 4 periodic grid of
side 2, zero velocity everywhere, non-porous. -/
theorem C7_zero_velocity_round_trip_witness :
    ((∀ r ∈ ([[0, 0, 0, 0], [0, 0, 0, 0], [0, 0, 0, 0], [0, 0, 0, 0]] :
          List (List ℚ)), ∀ e ∈ r, e = 0)
      ∧ (0 : ℚ) < 2
      ∧ (∀ a ∈ [(1 : ℚ)], 0 ≤ a ∧ a < 2)
      ∧ (∀ a ∈ [(3/2 : ℚ)], 0 ≤ a ∧ a < 2)
      ∧ [(1 : ℚ)].length = [(1 : ℚ)].length
      ∧ [(3/2 : ℚ)].length = [(3/2 : ℚ)].length
      ∧ [(1 : ℚ)].length = [(3/2 : ℚ)].length)
    ∧ please_Move_Lagrangian_Point_Positions (fun q => q)
        [[0, 0, 0, 0], [0, 0, 0, 0], [0, 0, 0, 0], [0, 0, 0, 0]]
        [[0, 0, 0, 0], [0, 0, 0, 0], [0, 0, 0, 0], [0, 0, 0, 0]]
        [1] [3/2] [1] [3/2] [0, 1/2, 1, 3/2] [0, 1/2, 1, 3/2] (1/10)
        ⟨4, 4, 2, 2, 1/2, 1/2, 4, 1, 1/8⟩ false = ([1], [3/2]) :=
  ⟨⟨by decide, by norm_num, by norm_num, by norm_num, rfl, rfl, rfl⟩,
   C7_zero_velocity_round_trip (fun q => q)
     [[0, 0, 0, 0], [0, 0, 0, 0], [0, 0, 0, 0], [0, 0, 0, 0]]
     [[0, 0, 0, 0], [0, 0, 0, 0], [0, 0, 0, 0], [0, 0, 0, 0]]
     [1] [3/2] [1] [3/2] [0, 1/2, 1, 3/2] [0, 1/2, 1, 3/2] (1/10)
     ⟨4, 4, 2, 2, 1/2, 1/2, 4, 1, 1/8⟩ false
     (by decide) (by decide) (by norm_num) (by norm_num) (by norm_num)
     (by norm_num) rfl rfl rfl⟩

/-- Contents of every argument array of
`please_Move_Lagrangian_Point_Positions` after a call, together with the
returned pair. -/
structure MoveLagState where
  result : List ℚ × List ℚ
  final_u : List (List ℚ)
  final_v : List (List ℚ)
  final_xL_P : List ℚ
  final_yL_P : List ℚ
  final_xL_H : List ℚ
  final_yL_H : List ℚ
  final_x : List ℚ
  final_y : List ℚ

/-- State-level embedding of `please_Move_Lagrangian_Point_Positions`.
Tracing Supp.py lines 88-121: every intermediate (`%`, `np.tile`, fancy
indexing, `np.abs`, elementwise arithmetic, `.sum`) allocates a fresh
array, and the one in-place loop of the pipeline — inside
`give_Delta_Kernel` — writes the freshly allocated `RMAT`, never an
argument of this function; so each argument array is unchanged by the
call and the returned pair is built from fresh arrays. -/
def please_Move_Lagrangian_Point_Positions_state (sqrtF : ℚ → ℚ)
    (u v : List (List ℚ)) (xL_P yL_P xL_H yL_H x y : List ℚ) (dt : ℚ)
    (grid_Info : GridInfo) (porous_Yes : Bool) : MoveLagState :=
  { result := please_Move_Lagrangian_Point_Positions sqrtF u v xL_P yL_P
      xL_H yL_H x y dt grid_Info porous_Yes
    final_u := u
    final_v := v
    final_xL_P := xL_P
    final_yL_P := yL_P
    final_xL_H := xL_H
    final_yL_H := yL_H
    final_x := x
    final_y := y }

/-- C10: `please_Move_Lagrangian_Point_Positions` modifies none of its
argument arrays — after a call, `u`, `v`, `xL_P`, `yL_P`, `xL_H`, `yL_H`,
`x` and `y` all hold their initial contents — and the returned pair is the
value computed by the purely functional embedding. -/
theorem C10_move_lagrangian_frame (sqrtF : ℚ → ℚ) (u v : List (List ℚ))
    (xL_P yL_P xL_H yL_H x y : List ℚ) (dt : ℚ) (grid_Info : GridInfo)
    (porous_Yes : Bool) :
    (please_Move_Lagrangian_Point_Positions_state sqrtF u v xL_P yL_P xL_H
        yL_H x y dt grid_Info porous_Yes).final_u = u
    ∧ (please_Move_Lagrangian_Point_Positions_state sqrtF u v xL_P yL_P xL_H
        yL_H x y dt grid_Info porous_Yes).final_v = v
    ∧ (please_Move_Lagrangian_Point_Positions_state sqrtF u v xL_P yL_P xL_H
        yL_H x y dt grid_Info porous_Yes).final_xL_P = xL_P
    ∧ (please_Move_Lagrangian_Point_Positions_state sqrtF u v xL_P yL_P xL_H
        yL_H x y dt grid_Info porous_Yes).final_yL_P = yL_P
    ∧ (please_Move_Lagrangian_Point_Positions_state sqrtF u v xL_P yL_P xL_H
        yL_H x y dt grid_Info porous_Yes).final_xL_H = xL_H
    ∧ (please_Move_Lagrangian_Point_Positions_state sqrtF u v xL_P yL_P xL_H
        yL_H x y dt grid_Info porous_Yes).final_yL_H = yL_H
    ∧ (please_Move_Lagrangian_Point_Positions_state sqrtF u v xL_P yL_P xL_H
        yL_H x y dt grid_Info porous_Yes).final_x = x
    ∧ (please_Move_Lagrangian_Point_Positions_state sqrtF u v xL_P yL_P xL_H
        yL_H x y dt grid_Info porous_Yes).final_y = y
    ∧ (please_Move_Lagrangian_Point_Positions_state sqrtF u v xL_P yL_P xL_H
        yL_H x y dt grid_Info porous_Yes).result
      = please_Move_Lagrangian_Point_Positions sqrtF u v xL_P yL_P xL_H yL_H
          x y dt grid_Info porous_Yes :=
  ⟨rfl, rfl, rfl, rfl, rfl, rfl, rfl, rfl, rfl⟩

end IB2d
